import Mathlib

/-
Formal model of the ProfPay envelope-encryption subsystem.

The model is a shallow embedding of the Python sources:
  backend/core/encryption.py        (primitive cipher, key wrapping, field codec)
  backend/core/security.py          (password hashing, session key custody)
  backend/presentation/auth_api.py  (login, password change, plaintext migration)
  backend/infrastructure/repositories.py (entity-level encrypt/decrypt helpers)

Fernet (the `cryptography` library primitive) is modelled as an ideal
authenticated cipher: a token records the key that sealed it and the sealed
payload; decryption under the sealing key recovers the payload, decryption
under any other key (or of a non-token string) fails authentication.
-/

namespace ProfPay

/-- A stored string value. Python code in this repository freely mixes
ordinary strings and Fernet ciphertext tokens in the same string-typed
columns, so a stored string is either a plain string or a token. A token
records the key that sealed it and the value whose string form was sealed
(tokens may nest: encrypting an already-encrypted string yields a token whose
payload is a token). -/
inductive SVal where
  | plain (s : String)
  | tok (key : String) (payload : SVal)
deriving DecidableEq, Repr

/-- Python truthiness of a stored string: the empty string is falsy; a Fernet
token is a long nonempty base64 string, hence always truthy. -/
def SVal.truthy : SVal → Bool
  | .plain s => s ≠ ""
  | .tok _ _ => true

/-- Whether the first character list is a leading segment of the second
(`str.startswith`, spelled out structurally). -/
def leadsWith : List Char → List Char → Bool
  | [], _ => true
  | _ :: _, [] => false
  | p :: ps, c :: cs => p == c && leadsWith ps cs

/-- The already-encrypted test `value.startswith("gAAAAA")`: every Fernet
token begins with the fixed version marker; a plain string may or may not. -/
def SVal.startsGA : SVal → Bool
  | .plain s => leadsWith "gAAAAA".data s.data
  | .tok _ _ => true

/-- `Fernet(key).encrypt(value)` (ideal model): seal the value under the key. -/
def fernetEncrypt (key : String) (v : SVal) : SVal := .tok key v

/-- `Fernet(key).decrypt(value)` (ideal model): succeeds exactly on a token
sealed under the same key; `InvalidToken` (here `none`) on a foreign-keyed
token or on a string that is not a token at all. -/
def fernetDecrypt (v : SVal) (key : String) : Option SVal :=
  match v with
  | .tok k p => if k = key then some p else none
  | .plain _ => none

/-- `encrypt_field` from `backend/core/encryption.py`: encrypt a string field;
`None` maps to `None`. -/
def encrypt_field (value : Option SVal) (key : String) : Option SVal :=
  match value with
  | none => none
  | some v => some (fernetEncrypt key v)

/-- `decrypt_field` from `backend/core/encryption.py`: decrypt a string field;
`None` maps to `None`; on any decryption failure the raw input value is
returned unchanged (the source comments this as "possibly unencrypted
data"). -/
def decrypt_field (token : Option SVal) (key : String) : Option SVal :=
  match token with
  | none => none
  | some t =>
    match fernetDecrypt t key with
    | some p => some p
    | none => some t

/-- A wrapped master key, i.e. the result of `Fernet(user_key).encrypt(master_key)`
in `wrap_master_key`. Ideal-cipher model of the same primitive, specialised to
key material as payload. -/
structure Wrapped where
  userKey : String
  masterKey : String
deriving DecidableEq, Repr

/-- `wrap_master_key` from `backend/core/encryption.py`: seal the master key
under a user-derived key. -/
def wrap_master_key (master_key user_key : String) : Wrapped :=
  ⟨user_key, master_key⟩

/-- `unwrap_master_key` from `backend/core/encryption.py`: open the wrapped
master key; any authentication failure collapses to `None`. -/
def unwrap_master_key (wrapped : Wrapped) (user_key : String) : Option String :=
  if wrapped.userKey = user_key then some wrapped.masterKey else none

/-- `derive_user_key` from `backend/core/encryption.py` (PBKDF2-HMAC-SHA256,
480000 iterations), modelled as a deterministic function of password and
salt. -/
def derive_user_key (password salt : String) : String :=
  "pbkdf2|" ++ toString password.length ++ "|" ++ password ++ "|" ++ salt

-- ---------------------------------------------------------------------------
-- Decimal and date codecs
-- ---------------------------------------------------------------------------

/-- Rendering `str(value)` of a Python `Decimal`; the decimal values in this
dataset are modelled as integers. -/
def renderDec (d : Int) : String := toString d

/-- Accumulate a digit string into a number; any non-digit character fails
the parse. -/
def digitsToNat (acc : Nat) : List Char → Option Nat
  | [] => some acc
  | c :: cs =>
    if c.isDigit then digitsToNat (acc * 10 + (c.toNat - 48)) cs else none

/-- Parse a nonempty all-digit character list as a number. -/
def parseNatChars (cs : List Char) : Option Nat :=
  match cs with
  | [] => none
  | _ :: _ => digitsToNat 0 cs

/-- Model of the `Decimal(s)` constructor on a string: an optional minus sign
followed by digits parses; anything else raises `InvalidOperation` (here
`none`). -/
def parseDec (s : String) : Option Int :=
  match s.data with
  | '-' :: rest => (parseNatChars rest).map (fun n => -(n : Int))
  | cs => (parseNatChars cs).map (fun n => (n : Int))

/-- A calendar date (`datetime.date`). -/
structure DateV where
  year : Nat
  month : Nat
  day : Nat
deriving DecidableEq, Repr

/-- Left-pad a numeral string with zeros to width `k`. -/
def padTo (k : Nat) (s : String) : String :=
  String.mk (List.replicate (k - s.length) '0') ++ s

/-- `date.isoformat()`: the canonical `YYYY-MM-DD` rendering. -/
def isoDate (d : DateV) : String :=
  padTo 4 (toString d.year) ++ "-" ++ padTo 2 (toString d.month) ++ "-" ++
    padTo 2 (toString d.day)

/-- Split a character list on the dash character. -/
def splitOnDash : List Char → List (List Char)
  | [] => [[]]
  | c :: rest =>
    let r := splitOnDash rest
    if c == '-' then [] :: r
    else
      match r with
      | [] => [[c]]
      | h :: t => (c :: h) :: t

/-- Model of `date.fromisoformat`: accepts `YYYY-MM-DD` with numeric parts and
a plausible month and day, raises `ValueError` (here `none`) otherwise. -/
def parseIsoDate (s : String) : Option DateV :=
  match splitOnDash s.data with
  | [y, m, d] =>
    if y.length = 4 ∧ m.length = 2 ∧ d.length = 2 then
      match parseNatChars y, parseNatChars m, parseNatChars d with
      | some yn, some mn, some dn =>
        if 1 ≤ mn ∧ mn ≤ 12 ∧ 1 ≤ dn ∧ dn ≤ 31 then some ⟨yn, mn, dn⟩
        else none
      | _, _, _ => none
    else none
  | _ => none

/-- `Decimal(x)` applied to what `decrypt_field` returned: a plain string is
parsed; a Fernet token string is base64 beginning with the letter g and never
parses as a decimal numeral. -/
def pyDecimalOfSVal (v : SVal) : Option Int :=
  match v with
  | .plain s => parseDec s
  | .tok _ _ => none

/-- `date.fromisoformat(x)` applied to what `decrypt_field` returned: a plain
string is parsed; a Fernet token string never parses as an ISO date. -/
def pyDateOfSVal (v : SVal) : Option DateV :=
  match v with
  | .plain s => parseIsoDate s
  | .tok _ _ => none

/-- `encrypt_decimal` from `backend/core/encryption.py`: encrypt a decimal as
its string rendering. -/
def encrypt_decimal (value : Option Int) (key : String) : Option SVal :=
  match value with
  | none => none
  | some d => encrypt_field (some (.plain (renderDec d))) key

/-- `decrypt_decimal` from `backend/core/encryption.py`: decrypt, then parse;
a parse failure is swallowed and returned as `None`. -/
def decrypt_decimal (token : Option SVal) (key : String) : Option Int :=
  match token with
  | none => none
  | some t =>
    match decrypt_field (some t) key with
    | none => none
    | some plaintext => pyDecimalOfSVal plaintext

/-- `encrypt_date` from `backend/core/encryption.py`: encrypt a date as its
ISO rendering. -/
def encrypt_date (value : Option DateV) (key : String) : Option SVal :=
  match value with
  | none => none
  | some d => encrypt_field (some (.plain (isoDate d))) key

/-- `decrypt_date` from `backend/core/encryption.py`: decrypt, then parse; a
parse failure is swallowed and returned as `None`. -/
def decrypt_date (token : Option SVal) (key : String) : Option DateV :=
  match token with
  | none => none
  | some t =>
    match decrypt_field (some t) key with
    | none => none
    | some plaintext => pyDateOfSVal plaintext

-- ---------------------------------------------------------------------------
-- Entities carrying encryptable fields
-- ---------------------------------------------------------------------------

/-- A `payer.date_of_birth` column value: either a genuine `datetime.date`
object (legacy rows) or a string (a ciphertext token, or a stringified
date). -/
inductive DobVal where
  | dt (d : DateV)
  | st (v : SVal)
deriving DecidableEq, Repr

/-- A decimal column value (`stipend_amount`, `budget_percent`,
`payment.amount`): either a genuine `Decimal` or a string. -/
inductive DecVal where
  | dec (d : Int)
  | st (v : SVal)
deriving DecidableEq, Repr

/-- Python truthiness of a decimal column value: `Decimal(0)` and the empty
string are falsy. -/
def DecVal.truthy : DecVal → Bool
  | .dec d => d ≠ 0
  | .st v => v.truthy

/-- `str(x)` of a decimal column value (`str` of a string is the string). -/
def DecVal.str : DecVal → SVal
  | .dec d => .plain (renderDec d)
  | .st v => v

/-- `str(x).startswith("gAAAAA")` for a decimal column value: the rendering of
a `Decimal` starts with a digit or a minus sign, never the letter g. -/
def DecVal.startsGA : DecVal → Bool
  | .dec _ => false
  | .st v => v.startsGA

/-- Python truthiness of a `date_of_birth` column value: a `date` object is
always truthy; a string follows string truthiness. -/
def DobVal.truthy : DobVal → Bool
  | .dt _ => true
  | .st v => v.truthy

/-- The sensitive fields of a `Payer` row (the fields the encryption subsystem
touches). -/
structure Payer where
  last_name : Option SVal
  first_name : Option SVal
  middle_name : Option SVal
  date_of_birth : Option DobVal
  email : Option SVal
  phone : Option SVal
  telegram : Option SVal
  vk : Option SVal
  stipend_amount : Option DecVal
  budget_percent : Option DecVal
  notes : Option SVal
deriving DecidableEq, Repr

/-- The sensitive fields of a `Payment` row. -/
structure Payment where
  amount : Option DecVal
  receipt_number : Option SVal
  notes : Option SVal
deriving DecidableEq, Repr

/-- The sensitive fields of an `AuditLog` row. -/
structure AuditLogRow where
  old_values : Option SVal
  new_values : Option SVal
deriving DecidableEq, Repr

/-- The tables the migration sweep touches. -/
structure Database where
  payers : List Payer
  payments : List Payment
  audit_logs : List AuditLogRow
deriving DecidableEq, Repr

-- ---------------------------------------------------------------------------
-- The one-shot migration `_migrate_encrypt_existing_data` (auth_api.py)
-- ---------------------------------------------------------------------------

/-- Truthiness of an optional stored string (`None` is falsy). -/
def optTruthy : Option SVal → Bool
  | none => false
  | some v => v.truthy

/-- Truthiness of an optional decimal column value. -/
def optDecTruthy : Option DecVal → Bool
  | none => false
  | some f => f.truthy

/-- The payer row guard in `_migrate_encrypt_existing_data`:
`payer.last_name and not payer.last_name.startswith("gAAAAA")`. The whole row
is processed or skipped on this one sentinel field. -/
def payerNeedsMigration (p : Payer) : Bool :=
  match p.last_name with
  | none => false
  | some v => v.truthy && !v.startsGA

/-- The `date_of_birth` update inside the migration:
`encrypt_date(dob, mk) if dob and not isinstance(dob, str)
 else encrypt_field(str(dob) if dob else None, mk)`. -/
def migrateDob (dob : Option DobVal) (key : String) : Option DobVal :=
  match dob with
  | some (.dt d) => (encrypt_date (some d) key).map .st
  | some (.st v) =>
    (encrypt_field (if v.truthy then some v else none) key).map .st
  | none => (encrypt_field none key).map .st

/-- `encrypt_decimal` as the migration actually applies it to a raw decimal
column value: the source is duck-typed, `str(value)` also accepts a string
already stored in the column. -/
def encryptDecCol (x : Option DecVal) (key : String) : Option SVal :=
  match x with
  | none => none
  | some f => encrypt_field (some f.str) key

/-- The payer branch of `_migrate_encrypt_existing_data`: if the sentinel
guard on `last_name` passes, every sensitive field of the row is encrypted;
otherwise the row is returned untouched. -/
def migratePayer (key : String) (p : Payer) : Payer :=
  if payerNeedsMigration p then
    { last_name := encrypt_field p.last_name key
      first_name := encrypt_field p.first_name key
      middle_name := encrypt_field p.middle_name key
      date_of_birth := migrateDob p.date_of_birth key
      email := encrypt_field p.email key
      phone := encrypt_field p.phone key
      telegram := encrypt_field p.telegram key
      vk := encrypt_field p.vk key
      stipend_amount :=
        if optDecTruthy p.stipend_amount then
          (encryptDecCol p.stipend_amount key).map .st
        else none
      budget_percent :=
        if optDecTruthy p.budget_percent then
          (encryptDecCol p.budget_percent key).map .st
        else none
      notes := encrypt_field p.notes key }
  else p

/-- The payment row guard in `_migrate_encrypt_existing_data`:
`payment.amount and not str(payment.amount).startswith("gAAAAA")`. -/
def paymentNeedsMigration (pm : Payment) : Bool :=
  match pm.amount with
  | none => false
  | some f => f.truthy && !f.startsGA

/-- The payment branch of `_migrate_encrypt_existing_data`. -/
def migratePayment (key : String) (pm : Payment) : Payment :=
  if paymentNeedsMigration pm then
    { amount :=
        if optDecTruthy pm.amount then (encryptDecCol pm.amount key).map .st
        else none
      receipt_number := encrypt_field pm.receipt_number key
      notes := encrypt_field pm.notes key }
  else pm

/-- The audit-log update in `_migrate_encrypt_existing_data`: here the guard
really is per field (`old_values` and `new_values` each carry their own
check). -/
def migrateAuditVal (v : Option SVal) (key : String) : Option SVal :=
  match v with
  | some s => if s.truthy && !s.startsGA then encrypt_field (some s) key else some s
  | none => none

/-- The audit-log branch of `_migrate_encrypt_existing_data`. -/
def migrateAudit (key : String) (a : AuditLogRow) : AuditLogRow :=
  { old_values := migrateAuditVal a.old_values key
    new_values := migrateAuditVal a.new_values key }

/-- `_migrate_encrypt_existing_data` from
`backend/presentation/auth_api.py`: the one-shot sweep over payers, payments
and audit logs. -/
def migrate_encrypt_existing_data (key : String) (db : Database) : Database :=
  { payers := db.payers.map (migratePayer key)
    payments := db.payments.map (migratePayment key)
    audit_logs := db.audit_logs.map (migrateAudit key) }

-- ---------------------------------------------------------------------------
-- Repository entity codec (_encrypt_payer / _decrypt_payer, repositories.py)
-- ---------------------------------------------------------------------------

/-- Python `x or y` on optional stored strings: `y` is taken when `x` is
`None` or falsy (in particular when `x` is the empty string). -/
def pyOr (x y : Option SVal) : Option SVal :=
  match x with
  | none => y
  | some v => if v.truthy then some v else y

/-- The `date_of_birth` line of `_encrypt_payer`:
`encrypt_date(dob, key) if not isinstance(dob, str) else encrypt_field(dob, key)`. -/
def encDobRepo (dob : Option DobVal) (key : String) : Option DobVal :=
  match dob with
  | none => none
  | some (.dt d) => (encrypt_date (some d) key).map .st
  | some (.st v) => (encrypt_field (some v) key).map .st

/-- The `date_of_birth` line of `_decrypt_payer`
(`decrypt_date(payer.date_of_birth, key)`). A raw `date` object falls through
the broad except in `decrypt_field` back to `date.fromisoformat`, which raises
`TypeError` on a non-string, caught and collapsed to `None`. -/
def decDobRepo (dob : Option DobVal) (key : String) : Option DobVal :=
  match dob with
  | none => none
  | some (.st v) => (decrypt_date (some v) key).map .dt
  | some (.dt _) => none

/-- The decimal lines of `_decrypt_payer`
(`decrypt_decimal(field, key)`). A raw `Decimal` falls through the broad
except in `decrypt_field` unchanged and `Decimal(Decimal)` accepts it. -/
def decDecRepo (x : Option DecVal) (key : String) : Option DecVal :=
  match x with
  | none => none
  | some (.st v) => (decrypt_decimal (some v) key).map .dec
  | some (.dec d) => some (.dec d)

/-- `_encrypt_payer` from `backend/infrastructure/repositories.py`. -/
def encryptPayer (key : String) (p : Payer) : Payer :=
  { last_name := encrypt_field p.last_name key
    first_name := encrypt_field p.first_name key
    middle_name := encrypt_field p.middle_name key
    date_of_birth := encDobRepo p.date_of_birth key
    email := encrypt_field p.email key
    phone := encrypt_field p.phone key
    telegram := encrypt_field p.telegram key
    vk := encrypt_field p.vk key
    stipend_amount :=
      match p.stipend_amount with
      | none => none
      | some f => (encryptDecCol (some f) key).map .st
    budget_percent :=
      match p.budget_percent with
      | none => none
      | some f => (encryptDecCol (some f) key).map .st
    notes := encrypt_field p.notes key }

/-- `_decrypt_payer` from `backend/infrastructure/repositories.py`. The
`last_name` and `first_name` lines read
`decrypt_field(field, key) or field` — the Python `or` falls back to the raw
stored value whenever the decrypted value is falsy. -/
def decryptPayer (key : String) (p : Payer) : Payer :=
  { last_name := pyOr (decrypt_field p.last_name key) p.last_name
    first_name := pyOr (decrypt_field p.first_name key) p.first_name
    middle_name := decrypt_field p.middle_name key
    date_of_birth := decDobRepo p.date_of_birth key
    email := decrypt_field p.email key
    phone := decrypt_field p.phone key
    telegram := decrypt_field p.telegram key
    vk := decrypt_field p.vk key
    stipend_amount := decDecRepo p.stipend_amount key
    budget_percent := decDecRepo p.budget_percent key
    notes := decrypt_field p.notes key }

-- ---------------------------------------------------------------------------
-- Accounts, password hashing, session key custody (security.py, models)
-- ---------------------------------------------------------------------------

/-- `get_password_hash` (bcrypt via passlib), modelled deterministically: the
hash determines exactly which password verifies. -/
def get_password_hash (password : String) : String := "bcrypt$" ++ password

/-- `verify_password` from `backend/core/security.py`. -/
def verify_password (plain_password hashed_password : String) : Bool :=
  hashed_password = get_password_hash plain_password

/-- The server-wide secret `settings.SECRET_KEY`, opaque here. -/
def SERVER_SECRET : String := "server-secret"

/-- `_derive_session_fernet_key` from `backend/core/security.py`: PBKDF2 over
the server secret with a fixed salt. -/
def session_fernet_key : String :=
  derive_user_key SERVER_SECRET "profpay-session-key-salt"

/-- `encrypt_session_key`: seal the master key under the server session key
for the HttpOnly cookie. -/
def encrypt_session_key (master_key : String) : SVal :=
  fernetEncrypt session_fernet_key (.plain master_key)

/-- A `SystemUser` row, restricted to the fields the encryption subsystem
reads or writes. -/
structure SysUser where
  id : Nat
  username : String
  hashed_password : String
  is_active : Bool
  encrypted_master_key : Option Wrapped
  key_salt : Option String
deriving DecidableEq, Repr

/-- The server state the login flow touches: the user table, the encryptable
tables, plus a ghost trace of every master key `generate_master_key` has
returned and an entropy counter supplying fresh random keys and salts. -/
structure ServerState where
  users : List SysUser
  db : Database
  minted_keys : List String
  fresh : Nat
deriving DecidableEq, Repr

/-- `generate_master_key` (`Fernet.generate_key()`): a fresh random key,
modelled by drawing from the entropy counter — distinct draws are distinct
keys. -/
def freshMasterKey (n : Nat) : String := "masterkey-" ++ toString n

/-- `generate_salt` (`os.urandom(16)`), modelled from the same counter. -/
def freshSalt (n : Nat) : String := "salt-" ++ toString n

/-- The failure responses of the `/auth/login` endpoint. -/
inductive LoginFailure where
  | unauthorized
  | forbidden
  | keyDecryptFailed
deriving DecidableEq, Repr

/-- What a successful login hands back: the JWT pair and the sealed master
key cookie (plus, for the session, the recovered master key itself). -/
structure LoginSuccess where
  user_id : Nat
  master_key : String
  access_token : String
  refresh_token : String
  encryption_key_cookie : SVal
deriving DecidableEq, Repr

/-- `UserRepository.get_by_username`. -/
def findUser (users : List SysUser) (username : String) : Option SysUser :=
  users.find? (fun u => u.username == username)

/-- Write an updated user row back into the user table. -/
def updateUser (users : List SysUser) (u : SysUser) : List SysUser :=
  users.map (fun x => if x.id = u.id then u else x)

/-- The `login` endpoint from `backend/presentation/auth_api.py`, lines
77-172. The branch on `user.encrypted_master_key` is checked only for the
logging-in user; the loop over the other users in the source has an empty
body (`pass`), so no other account is touched. -/
def login (st : ServerState) (username password : String) :
    Except LoginFailure (ServerState × LoginSuccess) :=
  match findUser st.users username with
  | none => .error .unauthorized
  | some user =>
    if verify_password password user.hashed_password = false then
      .error .unauthorized
    else if user.is_active = false then
      .error .forbidden
    else
      match user.encrypted_master_key with
      | none =>
        let master_key := freshMasterKey st.fresh
        let salt := freshSalt (st.fresh + 1)
        let user_key := derive_user_key password salt
        let user' := { user with
                       encrypted_master_key :=
                         some (wrap_master_key master_key user_key)
                       key_salt := some salt }
        let db' := migrate_encrypt_existing_data master_key st.db
        .ok ({ users := updateUser st.users user'
               db := db'
               minted_keys := st.minted_keys ++ [master_key]
               fresh := st.fresh + 2 },
             { user_id := user.id
               master_key := master_key
               access_token := "access|" ++ toString user.id
               refresh_token := "refresh|" ++ toString user.id
               encryption_key_cookie := encrypt_session_key master_key })
      | some wrapped =>
        let user_key := derive_user_key password (user.key_salt.getD "")
        match unwrap_master_key wrapped user_key with
        | none => .error .keyDecryptFailed
        | some master_key =>
          .ok ({ st with users := updateUser st.users user },
               { user_id := user.id
                 master_key := master_key
                 access_token := "access|" ++ toString user.id
                 refresh_token := "refresh|" ++ toString user.id
                 encryption_key_cookie := encrypt_session_key master_key })

/-- The failure response of the `/auth/change-password` endpoint. -/
inductive PwChangeFailure where
  | wrongCurrentPassword
deriving DecidableEq, Repr

/-- The `change_password` endpoint from `backend/presentation/auth_api.py`,
lines 370-412: verify the current password, then re-wrap the session master
key under a key derived from the new password and a fresh salt. `master_key`
is the Master Key recovered from the session cookie; the function never calls
`generate_master_key`. -/
def change_password (current_user : SysUser) (master_key : String)
    (current_password new_password : String) (entropy : Nat) :
    Except PwChangeFailure SysUser :=
  if verify_password current_password current_user.hashed_password = false then
    .error .wrongCurrentPassword
  else
    let new_salt := freshSalt entropy
    let new_user_key := derive_user_key new_password new_salt
    let new_wrapped_key := wrap_master_key master_key new_user_key
    .ok { current_user with
          hashed_password := get_password_hash new_password
          encrypted_master_key := some new_wrapped_key
          key_salt := some new_salt }

-- ---------------------------------------------------------------------------
-- Helper lemmas
-- ---------------------------------------------------------------------------

/-- Sealing then opening a field under the same key recovers the value. -/
theorem decrypt_field_encrypt_field (v : SVal) (k : String) :
    decrypt_field (encrypt_field (some v) k) k = some v := by
  simp [decrypt_field, encrypt_field, fernetEncrypt, fernetDecrypt]

/-- Mapping a second sweep over an already-swept list is the identity when
the second pass fixes every swept element. -/
theorem map_stable {α : Type} (f g : α → α) (h : ∀ a, f (g a) = g a) :
    ∀ l : List α, (l.map g).map f = l.map g := by
  intro l
  induction l with
  | nil => rfl
  | cons a t ih => simp [h a, ih]

/-- A payer row whose sentinel guard fails is returned untouched. -/
theorem migratePayer_skip (k : String) (p : Payer)
    (h : payerNeedsMigration p = false) : migratePayer k p = p := by
  simp [migratePayer, h]

/-- A payer row the migration has processed (or skipped) is left untouched by
any later migration pass, under any key. -/
theorem migratePayer_stable (k1 k2 : String) (p : Payer) :
    migratePayer k2 (migratePayer k1 p) = migratePayer k1 p := by
  cases h : payerNeedsMigration p with
  | false => rw [migratePayer_skip k1 p h, migratePayer_skip k2 p h]
  | true =>
    apply migratePayer_skip
    cases hl : p.last_name with
    | none => simp [payerNeedsMigration, hl] at h
    | some v =>
      have hln : (migratePayer k1 p).last_name = some (SVal.tok k1 v) := by
        simp [migratePayer, h, hl, encrypt_field, fernetEncrypt]
      simp [payerNeedsMigration, hln, SVal.truthy, SVal.startsGA]

/-- A payment row whose sentinel guard fails is returned untouched. -/
theorem migratePayment_skip (k : String) (pm : Payment)
    (h : paymentNeedsMigration pm = false) : migratePayment k pm = pm := by
  simp [migratePayment, h]

/-- A payment row the migration has processed (or skipped) is left untouched
by any later migration pass. -/
theorem migratePayment_stable (k1 k2 : String) (pm : Payment) :
    migratePayment k2 (migratePayment k1 pm) = migratePayment k1 pm := by
  cases h : paymentNeedsMigration pm with
  | false => rw [migratePayment_skip k1 pm h, migratePayment_skip k2 pm h]
  | true =>
    apply migratePayment_skip
    cases ha : pm.amount with
    | none => simp [paymentNeedsMigration, ha] at h
    | some f =>
      have hf : f.truthy = true := by
        simp [paymentNeedsMigration, ha] at h
        exact h.1
      have ham : (migratePayment k1 pm).amount
          = some (DecVal.st (SVal.tok k1 f.str)) := by
        simp [migratePayment, h, ha, optDecTruthy, hf, encryptDecCol,
          encrypt_field, fernetEncrypt]
      simp [paymentNeedsMigration, ham, DecVal.truthy, DecVal.startsGA,
        SVal.truthy, SVal.startsGA]

/-- An audit-log field the migration has processed (or skipped) is left
untouched by any later migration pass. -/
theorem migrateAuditVal_stable (k1 k2 : String) (v : Option SVal) :
    migrateAuditVal (migrateAuditVal v k1) k2 = migrateAuditVal v k1 := by
  cases v with
  | none => rfl
  | some s =>
    cases h : (s.truthy && !s.startsGA) with
    | false =>
      have e : migrateAuditVal (some s) k1 = some s := by
        simp [migrateAuditVal, h]
      rw [e]
      simp [migrateAuditVal, h]
    | true =>
      obtain ⟨h1, h2⟩ : s.truthy = true ∧ s.startsGA = false := by simpa using h
      have e : migrateAuditVal (some s) k1 = some (SVal.tok k1 s) := by
        simp [migrateAuditVal, h1, h2, encrypt_field, fernetEncrypt]
      rw [e]
      simp [migrateAuditVal, SVal.truthy, SVal.startsGA]

/-- An audit-log row the migration has processed is left untouched by any
later migration pass. -/
theorem migrateAudit_stable (k1 k2 : String) (a : AuditLogRow) :
    migrateAudit k2 (migrateAudit k1 a) = migrateAudit k1 a := by
  simp [migrateAudit, migrateAuditVal_stable]

-- ---------------------------------------------------------------------------
-- Claim theorems
-- ---------------------------------------------------------------------------

/-- Claim C1: for every plaintext string p and key k, decrypting the result
of encrypting p under k with the same k returns exactly p — the seal/open
round-trip of the primitive cipher as exposed by `encrypt_field` and
`decrypt_field`. -/
theorem decrypt_field_roundtrip (p : SVal) (k : String) :
    decrypt_field (encrypt_field (some p) k) k = some p :=
  decrypt_field_encrypt_field p k

/-- Claim C2 (counterexample): opening a field sealed under k1 with a
different key k2 through `decrypt_field` does not produce a failure value.
The result is `some` of the raw token — the only failure value in the type
of `decrypt_field` is `none`, and the returned value is exactly what a
successful legacy-plaintext read of that stored string would return, so the
caller cannot distinguish the authentication failure. -/
theorem decrypt_field_wrong_key_returns_raw_token :
    decrypt_field (encrypt_field (some (SVal.plain "secret")) "k1") "k2"
        = some (SVal.tok "k1" (SVal.plain "secret")) ∧
    (some (SVal.tok "k1" (SVal.plain "secret")) : Option SVal) ≠ none ∧
    some (SVal.tok "k1" (SVal.plain "secret")) ≠ some (SVal.plain "secret") := by
  refine ⟨rfl, by decide, by decide⟩

/-- Claim C2 (amended): for distinct keys k1 ≠ k2, opening a value sealed
under k1 with k2 fails authentication at the primitive (`Fernet.decrypt`
raises `InvalidToken`), and `unwrap_master_key` maps that failure to the
distinguishable value `None`; `decrypt_field`, however, maps the detected
failure to the unchanged raw token (its legacy-plaintext fallback) — it
never returns a decrypted-looking wrong plaintext, but neither does it
return a failure value. -/
theorem wrong_key_open_fails_or_falls_back
    (p : SVal) (mk k1 k2 : String) (h : k1 ≠ k2) :
    fernetDecrypt (fernetEncrypt k1 p) k2 = none ∧
    unwrap_master_key (wrap_master_key mk k1) k2 = none ∧
    decrypt_field (encrypt_field (some p) k1) k2 = some (fernetEncrypt k1 p) := by
  refine ⟨?_, ?_, ?_⟩ <;>
    simp [fernetDecrypt, fernetEncrypt, unwrap_master_key, wrap_master_key,
      decrypt_field, encrypt_field, h]

/-- Witness for the amended claim C2 at p = "s", mk = "mk", k1 = "k1",
k2 = "k2". -/
theorem wrong_key_open_fails_or_falls_back_witness :
    ("k1" : String) ≠ "k2" ∧
    (fernetDecrypt (fernetEncrypt "k1" (SVal.plain "s")) "k2" = none ∧
     unwrap_master_key (wrap_master_key "mk" "k1") "k2" = none ∧
     decrypt_field (encrypt_field (some (SVal.plain "s")) "k1") "k2"
        = some (fernetEncrypt "k1" (SVal.plain "s"))) :=
  ⟨by decide,
   wrong_key_open_fails_or_falls_back (SVal.plain "s") "mk" "k1" "k2" (by decide)⟩

/-- Claim C3: for every stored string t and key k, if decryption of t under
k fails authentication, `decrypt_field` returns t itself unchanged — the
degraded-decrypt policy that treats the value as legacy plaintext,
unconditionally for every failing input. -/
theorem decrypt_field_auth_failure_fallback
    (t : SVal) (k : String) (h : fernetDecrypt t k = none) :
    decrypt_field (some t) k = some t := by
  simp [decrypt_field, h]

/-- Witness for claim C3 at t = "legacy", k = "k". -/
theorem decrypt_field_auth_failure_fallback_witness :
    fernetDecrypt (SVal.plain "legacy") "k" = none ∧
    decrypt_field (some (SVal.plain "legacy")) "k" = some (SVal.plain "legacy") :=
  ⟨rfl, decrypt_field_auth_failure_fallback (SVal.plain "legacy") "k" rfl⟩

/-- A legacy payer row still in plaintext. -/
def legacyPayer : Payer :=
  { last_name := some (.plain "Ivanov")
    first_name := some (.plain "Ivan")
    middle_name := none
    date_of_birth := none
    email := some (.plain "ivan@example.org")
    phone := none
    telegram := none
    vk := none
    stipend_amount := none
    budget_percent := none
    notes := none }

/-- A deployment with two active operator accounts, neither yet enrolled, and
one legacy plaintext payer row. -/
def twoOperatorState : ServerState :=
  { users := [
      { id := 1, username := "alice"
        hashed_password := get_password_hash "pw-alice"
        is_active := true, encrypted_master_key := none, key_salt := none },
      { id := 2, username := "bob"
        hashed_password := get_password_hash "pw-bob"
        is_active := true, encrypted_master_key := none, key_salt := none }]
    db := { payers := [legacyPayer], payments := [], audit_logs := [] }
    minted_keys := []
    fresh := 0 }

/-- Alice logs in first (with her correct password), then Bob logs in (with
his correct password); the resulting server state, if both logins succeed. -/
def loginTwice : Option ServerState :=
  match login twoOperatorState "alice" "pw-alice" with
  | .ok (st1, _) =>
    match login st1 "bob" "pw-bob" with
    | .ok (st2, _) => some st2
    | .error _ => none
  | .error _ => none

/-- Claim C4: across every reachable sequence of logins at most one Master
Key is ever minted. The code violates this: the mint decision in `login`
checks only the logging-in account (`user.encrypted_master_key is None`), and
the loop meant to wrap the key for the other users has an empty body, so when
a second unenrolled operator logs in a second independent Master Key is
minted — while the payer data is already encrypted under the first key, which
the second session key cannot decrypt. -/
theorem login_second_unenrolled_user_mints_second_key :
    loginTwice.map ServerState.minted_keys
        = some ["masterkey-0", "masterkey-2"] ∧
    ("masterkey-0" : String) ≠ "masterkey-2" ∧
    loginTwice.map (fun st => st.db.payers.map Payer.last_name)
        = some [some (SVal.tok "masterkey-0" (SVal.plain "Ivanov"))] ∧
    decrypt_field (some (SVal.tok "masterkey-0" (SVal.plain "Ivanov")))
        "masterkey-2"
        = some (SVal.tok "masterkey-0" (SVal.plain "Ivanov")) := by
  refine ⟨by decide, by decide, by decide, by decide⟩

/-- Claim C5: the plaintext-to-ciphertext migration is idempotent — running
the sweep a second time (even under a different key) on an already-migrated
dataset leaves every field of every row byte-identical, because every
processed row now carries the ciphertext marker on its sentinel field and
every skipped row is skipped again. -/
theorem migration_idempotent (k1 k2 : String) (db : Database) :
    migrate_encrypt_existing_data k2 (migrate_encrypt_existing_data k1 db) =
      migrate_encrypt_existing_data k1 db := by
  unfold migrate_encrypt_existing_data
  simp [map_stable _ _ (migratePayer_stable k1 k2),
        map_stable _ _ (migratePayment_stable k1 k2),
        map_stable _ _ (migrateAudit_stable k1 k2)]

/-- Claim C6: the password-change operation re-wraps the same Master Key mk
under a key derived from the new password and a freshly generated salt and
never mints a new Master Key; afterwards unwrapping with the newly derived
key returns exactly mk, and a field encrypted under mk still decrypts
correctly. -/
theorem change_password_rewraps_same_master_key
    (u : SysUser) (mk cur npw : String) (n : Nat) (v : SVal)
    (h : verify_password cur u.hashed_password = true) :
    change_password u mk cur npw n =
      .ok { u with
            hashed_password := get_password_hash npw
            encrypted_master_key :=
              some (wrap_master_key mk (derive_user_key npw (freshSalt n)))
            key_salt := some (freshSalt n) } ∧
    unwrap_master_key (wrap_master_key mk (derive_user_key npw (freshSalt n)))
        (derive_user_key npw (freshSalt n)) = some mk ∧
    decrypt_field (encrypt_field (some v) mk) mk = some v := by
  refine ⟨?_, ?_, decrypt_field_encrypt_field v mk⟩
  · simp [change_password, h, wrap_master_key]
  · simp [unwrap_master_key, wrap_master_key]

/-- An enrolled operator account used in the claim C6 witness. -/
def enrolledAlice : SysUser :=
  { id := 1, username := "alice"
    hashed_password := get_password_hash "old-pw"
    is_active := true
    encrypted_master_key :=
      some (wrap_master_key "mk" (derive_user_key "old-pw" "salt-old"))
    key_salt := some "salt-old" }

/-- Witness for claim C6 at a concrete enrolled account, master key "mk",
new password "new-pw", entropy 7 and field value "Ivanov". -/
theorem change_password_rewraps_same_master_key_witness :
    verify_password "old-pw" enrolledAlice.hashed_password = true ∧
    (change_password enrolledAlice "mk" "old-pw" "new-pw" 7 =
        .ok { enrolledAlice with
              hashed_password := get_password_hash "new-pw"
              encrypted_master_key :=
                some (wrap_master_key "mk"
                  (derive_user_key "new-pw" (freshSalt 7)))
              key_salt := some (freshSalt 7) } ∧
      unwrap_master_key
          (wrap_master_key "mk" (derive_user_key "new-pw" (freshSalt 7)))
          (derive_user_key "new-pw" (freshSalt 7)) = some "mk" ∧
      decrypt_field (encrypt_field (some (SVal.plain "Ivanov")) "mk") "mk"
        = some (SVal.plain "Ivanov")) :=
  ⟨by decide,
   change_password_rewraps_same_master_key enrolledAlice "mk" "old-pw" "new-pw"
     7 (SVal.plain "Ivanov") (by decide)⟩

/-- Claim C7: for every enrolled operator account and every password that
fails verification, `login` returns the authentication failure before any key
material is touched: no Master Key is recovered, no decryption is attempted,
no token or cookie is issued, and no state (in particular the stored key
record) is produced. -/
theorem login_wrong_password_rejected
    (st : ServerState) (username password : String) (u : SysUser)
    (hfind : findUser st.users username = some u)
    (henrolled : u.encrypted_master_key.isSome = true)
    (hpw : verify_password password u.hashed_password = false) :
    login st username password = .error .unauthorized := by
  unfold login
  rw [hfind]
  simp [hpw]

/-- An enrolled operator account used in the claim C7 witness. -/
def enrolledCarol : SysUser :=
  { id := 3, username := "carol"
    hashed_password := get_password_hash "right-pw"
    is_active := true
    encrypted_master_key :=
      some (wrap_master_key "mk" (derive_user_key "right-pw" "salt-c"))
    key_salt := some "salt-c" }

/-- The server state for the claim C7 witness. -/
def wrongPwState : ServerState :=
  { users := [enrolledCarol]
    db := { payers := [], payments := [], audit_logs := [] }
    minted_keys := ["mk"]
    fresh := 0 }

/-- Witness for claim C7: carol is enrolled, "wrong" fails verification, and
the login is rejected as unauthorized. -/
theorem login_wrong_password_rejected_witness :
    findUser wrongPwState.users "carol" = some enrolledCarol ∧
    enrolledCarol.encrypted_master_key.isSome = true ∧
    verify_password "wrong" enrolledCarol.hashed_password = false ∧
    login wrongPwState "carol" "wrong" = .error .unauthorized :=
  ⟨by decide, by decide, by decide,
   login_wrong_password_rejected wrongPwState "carol" "wrong" enrolledCarol
     (by decide) (by decide) (by decide)⟩

/-- Claim C8 (counterexample): a field sealing the string "abc" decrypts
successfully, "abc" fails to parse as a decimal, and `decrypt_decimal`
returns the normal value `None` — precisely the value it also returns for an
absent field — instead of a distinct fatal data-integrity error; likewise
`decrypt_date` on a decrypted string that is not an ISO date. -/
theorem decrypt_decimal_parse_failure_concrete :
    decrypt_field (encrypt_field (some (SVal.plain "abc")) "k") "k"
        = some (SVal.plain "abc") ∧
    decrypt_decimal (encrypt_field (some (SVal.plain "abc")) "k") "k" = none ∧
    decrypt_decimal none "k" = none ∧
    decrypt_date (encrypt_field (some (SVal.plain "13-2023-99")) "k") "k"
        = none ∧
    decrypt_date none "k" = none := by
  refine ⟨rfl, by decide, rfl, by decide, rfl⟩

/-- Claim C8 (amended): for every decimal or date token whose decryption
succeeds but whose decrypted string fails to parse, `decrypt_decimal` and
`decrypt_date` swallow the parse failure and return `None` — the same value
as for an absent field — rather than any distinct error. -/
theorem decode_parse_failure_returns_none
    (k s t : String) (hs : parseDec s = none) (ht : parseIsoDate t = none) :
    decrypt_decimal (encrypt_field (some (SVal.plain s)) k) k = none ∧
    decrypt_date (encrypt_field (some (SVal.plain t)) k) k = none ∧
    decrypt_decimal none k = none ∧
    decrypt_date none k = none := by
  refine ⟨?_, ?_, rfl, rfl⟩ <;>
    simp [decrypt_decimal, decrypt_date, decrypt_field, encrypt_field,
      fernetEncrypt, fernetDecrypt, pyDecimalOfSVal, pyDateOfSVal, hs, ht]

/-- Witness for the amended claim C8 at s = "abc", t = "xyz", k = "k". -/
theorem decode_parse_failure_returns_none_witness :
    parseDec "abc" = none ∧ parseIsoDate "xyz" = none ∧
    (decrypt_decimal (encrypt_field (some (SVal.plain "abc")) "k") "k" = none ∧
     decrypt_date (encrypt_field (some (SVal.plain "xyz")) "k") "k" = none ∧
     decrypt_decimal none "k" = none ∧
     decrypt_date none "k" = none) :=
  ⟨by decide, by decide,
   decode_parse_failure_returns_none "k" "abc" "xyz" (by decide) (by decide)⟩

/-- Claim C9: the migration skip decision is taken from a single sentinel
field per row, not per field — a payer row whose `last_name` is `None`, empty
or already marker-prefixed is left completely unchanged in every other field
(even fields still in plaintext), and a payment row is skipped entirely based
only on its `amount` field. -/
theorem migration_skip_whole_row
    (key : String) (p : Payer) (pm : Payment) :
    ((p.last_name = none ∨ p.last_name = some (SVal.plain "") ∨
        (∃ v, p.last_name = some v ∧ v.startsGA = true)) →
      migratePayer key p = p) ∧
    ((pm.amount = none ∨ (∃ f, pm.amount = some f ∧ f.truthy = false) ∨
        (∃ f, pm.amount = some f ∧ f.startsGA = true)) →
      migratePayment key pm = pm) := by
  constructor
  · intro h
    have hskip : payerNeedsMigration p = false := by
      rcases h with h | h | ⟨v, hv, hga⟩
      · simp [payerNeedsMigration, h]
      · simp [payerNeedsMigration, h, SVal.truthy]
      · simp [payerNeedsMigration, hv, hga]
    simp [migratePayer, hskip]
  · intro h
    have hskip : paymentNeedsMigration pm = false := by
      rcases h with h | ⟨f, hf, ht⟩ | ⟨f, hf, hga⟩
      · simp [paymentNeedsMigration, h]
      · simp [paymentNeedsMigration, hf, ht]
      · simp [paymentNeedsMigration, hf, hga]
    simp [migratePayment, hskip]

/-- A payer row with no last name but other fields still in plaintext, used
in the claim C9 witness. -/
def skippedPayer : Payer :=
  { last_name := none
    first_name := some (.plain "Anna")
    middle_name := none
    date_of_birth := none
    email := some (.plain "anna@example.org")
    phone := some (.plain "+7-900-000-00-00")
    telegram := none
    vk := none
    stipend_amount := some (.dec 2500)
    budget_percent := none
    notes := some (.plain "still plaintext") }

/-- A payment row whose amount already carries the ciphertext marker while
its receipt number is still plaintext, used in the claim C9 witness. -/
def skippedPayment : Payment :=
  { amount := some (.st (.plain "gAAAAAexample"))
    receipt_number := some (.plain "R-17")
    notes := some (.plain "plaintext note") }

/-- Witness for claim C9: the sentinel conditions hold for the two concrete
rows and the migration leaves both rows completely unchanged. -/
theorem migration_skip_whole_row_witness :
    skippedPayer.last_name = none ∧
    (∃ f, skippedPayment.amount = some f ∧ f.startsGA = true) ∧
    migratePayer "k" skippedPayer = skippedPayer ∧
    migratePayment "k" skippedPayment = skippedPayment := by
  have h := migration_skip_whole_row "k" skippedPayer skippedPayment
  exact ⟨rfl, ⟨_, rfl, by decide⟩, h.1 (Or.inl rfl),
    h.2 (Or.inr (Or.inr ⟨_, rfl, by decide⟩))⟩

/-- Claim C10: for a payer whose `last_name` or `first_name` encrypts the
empty string, the repository decode step returns the raw ciphertext token
instead of the empty string (the `decrypt_field(...) or original` fallback
fires on the falsy empty string), so the entity-level encode/decode
round-trip fails for empty-string values of those two fields while it holds
for every other text field. -/
theorem decrypt_payer_empty_string_asymmetry (key : String) (p : Payer) :
    (p.last_name = some (SVal.plain "") →
      (decryptPayer key (encryptPayer key p)).last_name
          = some (SVal.tok key (SVal.plain "")) ∧
      (decryptPayer key (encryptPayer key p)).last_name ≠ p.last_name) ∧
    (p.first_name = some (SVal.plain "") →
      (decryptPayer key (encryptPayer key p)).first_name
          = some (SVal.tok key (SVal.plain "")) ∧
      (decryptPayer key (encryptPayer key p)).first_name ≠ p.first_name) ∧
    (p.middle_name = some (SVal.plain "") →
      (decryptPayer key (encryptPayer key p)).middle_name = p.middle_name) ∧
    (p.email = some (SVal.plain "") →
      (decryptPayer key (encryptPayer key p)).email = p.email) ∧
    (p.phone = some (SVal.plain "") →
      (decryptPayer key (encryptPayer key p)).phone = p.phone) ∧
    (p.telegram = some (SVal.plain "") →
      (decryptPayer key (encryptPayer key p)).telegram = p.telegram) ∧
    (p.vk = some (SVal.plain "") →
      (decryptPayer key (encryptPayer key p)).vk = p.vk) ∧
    (p.notes = some (SVal.plain "") →
      (decryptPayer key (encryptPayer key p)).notes = p.notes) := by
  refine ⟨?_, ?_, ?_, ?_, ?_, ?_, ?_, ?_⟩ <;> intro h <;>
    simp [decryptPayer, encryptPayer, h, encrypt_field, decrypt_field,
      fernetEncrypt, fernetDecrypt, pyOr, SVal.truthy]

/-- A payer row whose text fields are all the empty string, used in the claim
C10 witness. -/
def emptyFieldsPayer : Payer :=
  { last_name := some (.plain "")
    first_name := some (.plain "")
    middle_name := some (.plain "")
    date_of_birth := none
    email := some (.plain "")
    phone := some (.plain "")
    telegram := some (.plain "")
    vk := some (.plain "")
    stipend_amount := none
    budget_percent := none
    notes := some (.plain "") }

/-- Witness for claim C10 at key "k" and the all-empty payer: last name comes
back as the raw token, middle name and notes come back as the empty string. -/
theorem decrypt_payer_empty_string_asymmetry_witness :
    emptyFieldsPayer.last_name = some (SVal.plain "") ∧
    ((decryptPayer "k" (encryptPayer "k" emptyFieldsPayer)).last_name
        = some (SVal.tok "k" (SVal.plain "")) ∧
     (decryptPayer "k" (encryptPayer "k" emptyFieldsPayer)).last_name
        ≠ emptyFieldsPayer.last_name) ∧
    (decryptPayer "k" (encryptPayer "k" emptyFieldsPayer)).middle_name
        = emptyFieldsPayer.middle_name ∧
    (decryptPayer "k" (encryptPayer "k" emptyFieldsPayer)).notes
        = emptyFieldsPayer.notes := by
  have h := decrypt_payer_empty_string_asymmetry "k" emptyFieldsPayer
  exact ⟨rfl, h.1 rfl, h.2.2.1 rfl, h.2.2.2.2.2.2.2 rfl⟩

end ProfPay
